import Mathlib

/-!
Verification development for the PropScraper repository.

The repository has two scrapers:
* `Bayut-Scraper -ETL -RENT ONLY.py` (class `MagnoliaScraper`): an Algolia-API
  scraper with a price-band partition plan (`price_range_scrape`), a retrying
  transport (`_make_request`), a per-partition page loop, a pandas
  normalization block, and a CSV consolidator (`combine_csv_files`).
* `PropertyFinder-Scraper.py`: a server-rendered-page scraper with a
  pagination loop (`scrape_properties`) that retries transiently empty pages.

This file is a shallow embedding of those parts: pure functions mirror the
source line by line; the impure bits (HTTP, sleeping, CSV files, logging) are
turned into explicit parameters (outcome functions for requests, lists of
already-read units for files) or explicit result values (lists of sleep
durations, traces of requested pages).
-/

/- ============================================================
   § Partition planner
   `MagnoliaScraper.price_range_scrape`, `price_ranges` list.
   Each entry's "filter" string is an Algolia numeric predicate over the
   listing price; `lo`/`hi` are the inclusive lower and exclusive upper
   bounds it denotes ("price < 20000" means lo = 0 over the declared
   domain price >= 0; `hi = none` means no upper bound).  Prices are
   modelled as naturals (the declared domain: 0 to infinity).
   ============================================================ -/

structure PriceBand where
  label : String
  lo : Nat
  hi : Option Nat
deriving DecidableEq

/-- The boolean predicate a band's Algolia filter string denotes. -/
def PriceBand.matches (b : PriceBand) (p : Nat) : Bool :=
  decide (b.lo ≤ p) && (match b.hi with | some h => decide (p < h) | none => true)

/-- The `price_ranges` list of `price_range_scrape`, in source order
(commented-out entries of the source are omitted, as they are in the code). -/
def price_ranges : List PriceBand :=
  [ ⟨"budget", 0, some 20000⟩,            -- "price < 20000"
    ⟨"budget2", 20001, some 35000⟩,       -- "price >= 20001 AND price < 35000"
    ⟨"budget3", 35001, some 50000⟩,       -- "price >= 35001 AND price < 50000"
    ⟨"mid_range", 50001, some 75000⟩,     -- "price >= 50001 AND price < 75000"
    ⟨"mid_range2", 75001, some 100000⟩,   -- "price >= 75001 AND price < 100000"
    ⟨"mid_range22", 100001, some 120000⟩, -- "price >= 100001 AND price < 120000"
    ⟨"mid_range3", 120001, some 150001⟩,  -- "price >= 120001 AND price < 150001"
    ⟨"mid_range4", 150001, some 200000⟩,  -- "price >= 150001 AND price < 200000"
    ⟨"mid_range5", 200001, some 250000⟩,  -- "price >= 200001 AND price < 250000"
    ⟨"mid_range6", 250001, some 275000⟩,  -- "price >= 250001 AND price < 275000"
    ⟨"mid_range7", 275001, some 300000⟩,  -- "price >= 275001 AND price < 300000"
    ⟨"mid_range8", 300001, some 400000⟩,  -- "price >= 300001 AND price < 400000"
    ⟨"mid_range9", 400001, some 500000⟩,  -- "price >= 400001 AND price < 500000"
    ⟨"mid_range10", 500001, some 600000⟩, -- "price >= 500001 AND price < 600000"
    ⟨"ultra_luxury", 600001, none⟩ ]      -- "price >= 600001"

/-- Band `a` ends at or before band `b` begins (the shape the concrete
`price_ranges` list has, which yields pairwise disjointness). -/
def bandBefore (a b : PriceBand) : Bool :=
  match a.hi with
  | some h => decide (h ≤ b.lo)
  | none => false

/-- The integer prices between 0 and infinity that fall in no band of
`price_ranges`: each is the exclusive upper bound of one band while the next
band starts one unit higher. -/
def gapPrices : List Nat :=
  [20000, 35000, 50000, 75000, 100000, 120000, 200000,
   250000, 275000, 300000, 400000, 500000, 600000]

/- ============================================================
   § Rate-limited transport
   `MagnoliaScraper._make_request`: `for attempt in range(max_retries)`,
   try the POST; on success return the JSON; on RequestException, if
   `attempt < max_retries - 1` sleep `retry_delay * (attempt + 1)` and go
   round again, else re-raise.  The network is modelled by an outcome
   function `o` from attempt index to `Except`; the returned triple is
   (final result, list of sleep durations performed, number of attempts).
   ============================================================ -/

def max_retries : Nat := 3

def retry_delay : Nat := 2

def make_request_from (o : Nat → Except ε ρ) (attempt : Nat) :
    Except ε ρ × List Nat × Nat :=
  match o attempt with
  | .ok r => (.ok r, [], 1)
  | .error e =>
    if _h : attempt < max_retries - 1 then
      let rest := make_request_from o (attempt + 1)
      (rest.1, retry_delay * (attempt + 1) :: rest.2.1, rest.2.2 + 1)
    else
      (.error e, [], 1)
termination_by max_retries - attempt
decreasing_by simp only [max_retries] at *; omega

/-- `_make_request`: the loop starts at attempt 0. -/
def make_request (o : Nat → Except ε ρ) : Except ε ρ × List Nat × Nat :=
  make_request_from o 0

/- ============================================================
   § `MagnoliaScraper.scrape_listings`
   Calls `_make_request` and returns `result.get('hits', [])`; any
   exception (in particular transport-retry exhaustion) is caught and an
   empty list is returned.  The response body is modelled directly as its
   `hits` list.
   ============================================================ -/

def scrape_listings (o : Nat → Except ε (List ρ)) : List ρ :=
  match (make_request o).1 with
  | .ok hits => hits
  | .error _ => []

/- ============================================================
   § `price_range_scrape` page loop (lines 143-157)
   `for page in range(max_pages)`: fetch the page; `if not listings:
   break`; else extend the accumulator.  `fetch` maps a page index to the
   listings `scrape_listings` returned for it; the result is the
   accumulated listings plus the list of page indices requested, in
   request order.
   ============================================================ -/

def prs_go (fetch : Nat → List ρ) : Nat → Nat → List ρ → List ρ × List Nat
  | 0, _page, acc => (acc, [])
  | fuel + 1, page, acc =>
    let listings := fetch page
    if listings.isEmpty then (acc, [page])
    else
      let rest := prs_go fetch fuel (page + 1) (acc ++ listings)
      (rest.1, page :: rest.2)

/-- The page loop of one partition: pages 0 .. max_pages - 1. -/
def price_range_pages (fetch : Nat → List ρ) (max_pages : Nat) :
    List ρ × List Nat :=
  prs_go fetch max_pages 0 []

/- ============================================================
   § `price_range_scrape` partition orchestration (lines 126-248)
   `for price_range in price_ranges: try: ... except Exception as e:
   log and continue`.  The body of one partition (page loop +
   normalization + CSV write) is abstracted as a fallible function from
   the band to its written records; the orchestrator records `none` for a
   partition whose body raised (the error is logged and swallowed).
   ============================================================ -/

def price_range_scrape_run (body : PriceBand → Except ε (List ρ)) :
    List (Option (List ρ)) :=
  price_ranges.map (fun b => (body b).toOption)

/- ============================================================
   § Record normalizer (lines 160-242)
   The pandas block applies per-row transformations to the DataFrame of
   raw listings; this embedding is per record.  A raw listing's fields
   are the keys the block reads; a key a listing lacks (a NaN cell in the
   DataFrame) is `none`.  Nested dicts whose `.get` may miss are nested
   `Option`s.  Epoch timestamps stay as their second counts (the
   `pd.to_datetime(unit='s')` conversion is a bijection on them).
   ============================================================ -/

structure Geography where
  lat : Option Int
  lng : Option Int
deriving DecidableEq

/-- One element of the `location` or `category` ordered node sequence;
`loc.get('level')`, `loc.get('externalID')`, `loc.get('name')` each may
miss. -/
structure LocNode where
  level : Option Nat
  externalID : Option String
  name : Option String
deriving DecidableEq

structure Agency where
  name : Option String
deriving DecidableEq

structure ExtraFields where
  dldBuildingNK : Option String
  dldPropertySK : Option String
deriving DecidableEq

structure RawListing where
  objectID : Option String
  externalID : Option String
  geography : Option Geography
  location : Option (List LocNode)
  category : Option (List LocNode)
  agency : Option Agency
  extraFields : Option ExtraFields
  createdAt : Option Nat
  updatedAt : Option Nat
  referenceNumber : Option String
  permitNumber : Option String
  title : Option String
  purpose : Option String
  price : Option Int
  rentFrequency : Option String
  rooms : Option Int
  baths : Option Int
  area : Option Int
  plotArea : Option Int
  furnishingStatus : Option String
  amenities : Option String
  contactName : Option String
  phoneNumber : Option String
  completionStatus : Option String
deriving DecidableEq

/-- `extract_location_details(location, level)`: if the cell holds a list,
return `(loc.get('externalID'), loc.get('name'))` of the FIRST node whose
level equals `level`; otherwise (or when no node matches) `(None, None)`. -/
def extract_location_details (location : Option (List LocNode)) (level : Nat) :
    Option String × Option String :=
  match location with
  | some locs =>
    match locs.find? (fun loc => loc.level == some level) with
    | some loc => (loc.externalID, loc.name)
    | none => (none, none)
  | none => (none, none)

/-- `extract_category_details(category, level)`: same walk over the
`category` node sequence. -/
def extract_category_details (category : Option (List LocNode)) (level : Nat) :
    Option String × Option String :=
  match category with
  | some cats =>
    match cats.find? (fun cat => cat.level == some level) with
    | some cat => (cat.externalID, cat.name)
    | none => (none, none)
  | none => (none, none)

/-- The `desired_columns` projection, in source order.  `area (sqm)` and
`plotArea (sqm)` are spelled `area_sqm` / `plotArea_sqm`.  Columns the block
computes but `desired_columns` drops (CityCode, NeighborhoodID, BuildingID,
CategoryTypeCode, CategorySubtypeCode) have no field here. -/
structure NormalizedRecord where
  objectID : Option String
  DldPropertySK : Option String
  referenceNumber : Option String
  permitNumber : Option String
  title : Option String
  BayutLink : Option String
  purpose : Option String
  price : Option Int
  rentFrequency : Option String
  rooms : Option Int
  baths : Option Int
  area_sqm : Option Int
  plotArea_sqm : Option Int
  furnishingStatus : Option String
  amenities : Option String
  CategoryTypeName : Option String
  CategorySubtypeName : Option String
  CityName : Option String
  DistrictID : Option String
  DistrictName : Option String
  NeighborhoodName : Option String
  BuildingName : Option String
  DldBuildingNK : Option String
  latitude : Option Int
  longitude : Option Int
  createdAt : Option Nat
  updatedAt : Option Nat
  contactName : Option String
  phoneNumber : Option String
  AgencyName : Option String
  completionStatus : Option String
  scrape_date : String
deriving DecidableEq

/-- The flattening of one raw listing by the normalization block, given the
capture timestamp `scrape_date` the block stamps on every row. -/
def normalizeFields (raw : RawListing) (scrape_date : String) : NormalizedRecord :=
  { objectID := raw.objectID
    DldPropertySK := raw.extraFields.bind ExtraFields.dldPropertySK
    referenceNumber := raw.referenceNumber
    permitNumber := raw.permitNumber
    title := raw.title
    BayutLink := raw.externalID.map
      (fun x => "https://www.bayut.com/property/details-" ++ x ++ ".html")
    purpose := raw.purpose
    price := raw.price
    rentFrequency := raw.rentFrequency
    rooms := raw.rooms
    baths := raw.baths
    area_sqm := raw.area
    plotArea_sqm := raw.plotArea
    furnishingStatus := raw.furnishingStatus
    amenities := raw.amenities
    CategoryTypeName := (extract_category_details raw.category 0).2
    CategorySubtypeName := (extract_category_details raw.category 1).2
    CityName := (extract_location_details raw.location 1).2
    DistrictID := (extract_location_details raw.location 2).1
    DistrictName := (extract_location_details raw.location 2).2
    NeighborhoodName := (extract_location_details raw.location 3).2
    BuildingName := (extract_location_details raw.location 4).2
    DldBuildingNK := raw.extraFields.bind ExtraFields.dldBuildingNK
    latitude := raw.geography.bind Geography.lat
    longitude := raw.geography.bind Geography.lng
    createdAt := raw.createdAt
    updatedAt := raw.updatedAt
    contactName := raw.contactName
    phoneNumber := raw.phoneNumber
    AgencyName := raw.agency.bind Agency.name
    completionStatus := raw.completionStatus
    scrape_date := scrape_date }

/-- The one structurally required field: the unique identifier.  A record
with a null identifier is dropped from the output (the
`df[df['property.id'].notnull()]` filter of `PropertyFinder-Scraper.py`,
the spec's `SchemaError` case); every other absence is tolerated. -/
inductive SchemaError where
  | missingIdentifier
deriving DecidableEq

/-- `normalize(raw) -> NormalizedRecord`: flatten one raw listing, failing
only when the identifier is absent.  (Mathlib already owns the top-level
name `normalize`, hence the suffix.) -/
def normalizeListing (raw : RawListing) (scrape_date : String) :
    Except SchemaError NormalizedRecord :=
  match raw.objectID with
  | some _ => .ok (normalizeFields raw scrape_date)
  | none => .error SchemaError.missingIdentifier

/- ============================================================
   § PropertyFinder pagination loop
   `scrape_properties` (`PropertyFinder-Scraper.py`, lines 48-74):
   `page_number = 1; retry_count = 0; while True:` fetch the page;
   `if not listings:` bump `retry_count`, stop once it reaches the
   tolerance (3 in the source) and otherwise retry the SAME page; else
   reset `retry_count`, extend the accumulator and bump `page_number`.
   `fetch` maps the index of the HTTP call to its outcome (`none` for a
   failed fetch, `some []` for a page with no listings); `fuel` bounds
   the number of iterations so the function is total; the trace records,
   per call, the page requested, the retry count at call time and the
   outcome.
   ============================================================ -/

/-- `if not listings:` — true for a failed fetch (`None`) and for an empty
listings array alike. -/
def fetchEmpty : Option (List ρ) → Bool
  | none => true
  | some [] => true
  | some (_ :: _) => false

structure PFEntry (ρ : Type) where
  page : Nat
  retry : Nat
  result : Option (List ρ)
deriving DecidableEq

def pf_loop (tol : Nat) (fetch : Nat → Option (List ρ)) :
    Nat → Nat → Nat → Nat → List ρ → List ρ × List (PFEntry ρ)
  | 0, _call, _page, _retry, acc => (acc, [])
  | fuel + 1, call, page, retry, acc =>
    let r := fetch call
    if fetchEmpty r then
      if tol ≤ retry + 1 then (acc, [⟨page, retry, r⟩])
      else
        let rest := pf_loop tol fetch fuel (call + 1) page (retry + 1) acc
        (rest.1, ⟨page, retry, r⟩ :: rest.2)
    else
      let rest := pf_loop tol fetch fuel (call + 1) (page + 1) 0 (acc ++ r.getD [])
      (rest.1, ⟨page, retry, r⟩ :: rest.2)

/-- `scrape_properties`: page numbering starts at 1, the retry count at 0,
and the source's consecutive-empty tolerance is 3. -/
def scrape_properties (fetch : Nat → Option (List ρ)) (fuel : Nat) :
    List ρ × List (PFEntry ρ) :=
  pf_loop 3 fetch fuel 0 1 0 []

/-- The relation between consecutive calls of the loop: an empty or failed
fetch leaves the page unchanged and bumps the retry count; a non-empty one
advances the page by exactly one and resets the retry count. -/
def pfAdjacent (e1 e2 : PFEntry ρ) : Prop :=
  if fetchEmpty e1.result then e2.page = e1.page ∧ e2.retry = e1.retry + 1
  else e2.page = e1.page + 1 ∧ e2.retry = 0

/-- A source that returns one transiently empty page and then, on the retry
of the same page, the non-empty listings `l`; afterwards nothing. -/
def transientStub (l : List ρ) : Nat → Option (List ρ) :=
  fun c => if c = 1 then some l else none

/-- A source whose every fetch fails (used to exercise the loop on a
concrete input). -/
def failFetch : Nat → Option (List Nat) := fun _ => none

/-- A transport outcome whose every attempt fails (used to exercise
`_make_request` on a concrete input). -/
def failSend : Nat → Except String Nat := fun _ => .error "boom"

/-- A transport outcome whose every attempt succeeds (used to exercise
`_make_request` on a concrete input). -/
def okSend : Nat → Except String Nat := fun _ => .ok 7

/-- A transport outcome for a listings request whose every attempt fails
(used to exercise `scrape_listings` on a concrete input). -/
def failSendList : Nat → Except String (List Nat) := fun _ => .error "down"

/-- A partition body that raises for every band (used to exercise the
orchestrating loop on a concrete input). -/
def failBody : PriceBand → Except String (List Nat) := fun _ => .error "bad"


/- ============================================================
   § Consolidator
   `MagnoliaScraper.combine_csv_files(input_folder, output_file)`:
   glob the folder's CSV files; `if not csv_files:` log a warning and
   return (no output file is produced and nothing is raised); else
   `pd.concat` the files in discovery order and write the result.  The
   already-read units stand in for the files; the outcome says what the
   call did.  `raisedIOError` renders the spec's claimed behaviour of the
   no-units case ("fails with IOError"); the source never produces it —
   its whole body sits in a catch-all `except` that only logs.
   ============================================================ -/

inductive ConsolidateOutcome (ρ : Type) where
  /-- The concatenation was written to the output file. -/
  | wrote (d : List ρ)
  /-- `logging.warning(...)`, then a plain `return`: no output, no error
  surfaced to the caller. -/
  | returnedWithoutOutput
  /-- An `IOError` propagates to the caller (what the spec claims the
  no-units case does). -/
  | raisedIOError
deriving DecidableEq

def combine_csv_files (csv_files : List (List ρ)) : ConsolidateOutcome ρ :=
  if csv_files.isEmpty then .returnedWithoutOutput
  else .wrote csv_files.flatten

/- Concrete records used to exercise the normalizer. -/

/-- A raw listing that has an identifier and nothing else. -/
def bareRaw : RawListing :=
  { objectID := some "ad1", externalID := none, geography := none,
    location := none, category := none, agency := none, extraFields := none,
    createdAt := none, updatedAt := none, referenceNumber := none,
    permitNumber := none, title := none, purpose := none, price := none,
    rentFrequency := none, rooms := none, baths := none, area := none,
    plotArea := none, furnishingStatus := none, amenities := none,
    contactName := none, phoneNumber := none, completionStatus := none }

/-- A raw listing with no identifier at all. -/
def noIdRaw : RawListing := { bareRaw with objectID := none }

/-- A level-1 (city) location node. -/
def cityNode : LocNode := ⟨some 1, some "5002", some "Dubai"⟩

/-- A level-2 (district) location node. -/
def districtNode : LocNode := ⟨some 2, some "6001", some "Marina"⟩

/-- A raw listing whose location sequence has nodes at levels 1 and 2 but
none at levels 3 or 4. -/
def locRaw : RawListing := { bareRaw with location := some [cityNode, districtNode] }

/- ============================================================
   Theorems.
   ============================================================ -/

/- § Helper lemmas for the partition plan. -/

theorem not_both_matches {a b : PriceBand} {p : Nat}
    (hab : bandBefore a b = true) (hpa : a.matches p = true)
    (hpb : b.matches p = true) : False := by
  unfold bandBefore at hab
  unfold PriceBand.matches at hpa hpb
  rcases ha : a.hi with _ | hi
  · rw [ha] at hab
    exact Bool.false_ne_true hab
  · rw [ha] at hab hpa
    simp only [Bool.and_eq_true, decide_eq_true_eq] at hab hpa hpb
    omega

theorem countP_matches_le_one (l : List PriceBand)
    (hl : l.Pairwise (fun a b => bandBefore a b = true)) (p : Nat) :
    l.countP (fun b => b.matches p) ≤ 1 := by
  induction l with
  | nil => simp
  | cons a t ih =>
    rw [List.countP_cons]
    rcases List.pairwise_cons.mp hl with ⟨ha, ht⟩
    by_cases hpa : a.matches p = true
    · have ht0 : t.countP (fun b => b.matches p) = 0 := by
        rw [List.countP_eq_zero]
        intro b hb hpb
        exact not_both_matches (ha b hb) hpa hpb
      simp [ht0, hpa]
    · have hb : a.matches p = false := Bool.eq_false_iff.mpr hpa
      have ht1 := ih ht
      simp [hb]
      omega

theorem countP_pos_of_mem {l : List α} {f : α → Bool} {a : α}
    (ha : a ∈ l) (hfa : f a = true) : 1 ≤ l.countP f := by
  induction l with
  | nil => cases ha
  | cons b t ih =>
    rw [List.countP_cons]
    rcases List.mem_cons.mp ha with h | h
    · subst h
      simp [hfa]
    · have := ih h
      omega

theorem price_ranges_cover (p : Nat) (hp : p ∉ gapPrices) :
    1 ≤ price_ranges.countP (fun b => b.matches p) := by
  simp only [gapPrices, List.mem_cons, List.not_mem_nil, or_false, not_or] at hp
  obtain ⟨g1, g2, g3, g4, g5, g6, g7, g8, g9, g10, g11, g12, g13⟩ := hp
  by_cases h1 : p < 20000
  · exact countP_pos_of_mem
      (show PriceBand.mk "budget" 0 (some 20000) ∈ price_ranges by decide)
      (show (PriceBand.mk "budget" 0 (some 20000)).matches p = true by
        simp [PriceBand.matches]; omega)
  by_cases h2 : p < 35000
  · exact countP_pos_of_mem
      (show PriceBand.mk "budget2" 20001 (some 35000) ∈ price_ranges by decide)
      (show (PriceBand.mk "budget2" 20001 (some 35000)).matches p = true by
        simp [PriceBand.matches]; omega)
  by_cases h3 : p < 50000
  · exact countP_pos_of_mem
      (show PriceBand.mk "budget3" 35001 (some 50000) ∈ price_ranges by decide)
      (show (PriceBand.mk "budget3" 35001 (some 50000)).matches p = true by
        simp [PriceBand.matches]; omega)
  by_cases h4 : p < 75000
  · exact countP_pos_of_mem
      (show PriceBand.mk "mid_range" 50001 (some 75000) ∈ price_ranges by decide)
      (show (PriceBand.mk "mid_range" 50001 (some 75000)).matches p = true by
        simp [PriceBand.matches]; omega)
  by_cases h5 : p < 100000
  · exact countP_pos_of_mem
      (show PriceBand.mk "mid_range2" 75001 (some 100000) ∈ price_ranges by decide)
      (show (PriceBand.mk "mid_range2" 75001 (some 100000)).matches p = true by
        simp [PriceBand.matches]; omega)
  by_cases h6 : p < 120000
  · exact countP_pos_of_mem
      (show PriceBand.mk "mid_range22" 100001 (some 120000) ∈ price_ranges by decide)
      (show (PriceBand.mk "mid_range22" 100001 (some 120000)).matches p = true by
        simp [PriceBand.matches]; omega)
  by_cases h7 : p < 150001
  · exact countP_pos_of_mem
      (show PriceBand.mk "mid_range3" 120001 (some 150001) ∈ price_ranges by decide)
      (show (PriceBand.mk "mid_range3" 120001 (some 150001)).matches p = true by
        simp [PriceBand.matches]; omega)
  by_cases h8 : p < 200000
  · exact countP_pos_of_mem
      (show PriceBand.mk "mid_range4" 150001 (some 200000) ∈ price_ranges by decide)
      (show (PriceBand.mk "mid_range4" 150001 (some 200000)).matches p = true by
        simp [PriceBand.matches]; omega)
  by_cases h9 : p < 250000
  · exact countP_pos_of_mem
      (show PriceBand.mk "mid_range5" 200001 (some 250000) ∈ price_ranges by decide)
      (show (PriceBand.mk "mid_range5" 200001 (some 250000)).matches p = true by
        simp [PriceBand.matches]; omega)
  by_cases h10 : p < 275000
  · exact countP_pos_of_mem
      (show PriceBand.mk "mid_range6" 250001 (some 275000) ∈ price_ranges by decide)
      (show (PriceBand.mk "mid_range6" 250001 (some 275000)).matches p = true by
        simp [PriceBand.matches]; omega)
  by_cases h11 : p < 300000
  · exact countP_pos_of_mem
      (show PriceBand.mk "mid_range7" 275001 (some 300000) ∈ price_ranges by decide)
      (show (PriceBand.mk "mid_range7" 275001 (some 300000)).matches p = true by
        simp [PriceBand.matches]; omega)
  by_cases h12 : p < 400000
  · exact countP_pos_of_mem
      (show PriceBand.mk "mid_range8" 300001 (some 400000) ∈ price_ranges by decide)
      (show (PriceBand.mk "mid_range8" 300001 (some 400000)).matches p = true by
        simp [PriceBand.matches]; omega)
  by_cases h13 : p < 500000
  · exact countP_pos_of_mem
      (show PriceBand.mk "mid_range9" 400001 (some 500000) ∈ price_ranges by decide)
      (show (PriceBand.mk "mid_range9" 400001 (some 500000)).matches p = true by
        simp [PriceBand.matches]; omega)
  by_cases h14 : p < 600000
  · exact countP_pos_of_mem
      (show PriceBand.mk "mid_range10" 500001 (some 600000) ∈ price_ranges by decide)
      (show (PriceBand.mk "mid_range10" 500001 (some 600000)).matches p = true by
        simp [PriceBand.matches]; omega)
  · exact countP_pos_of_mem
      (show PriceBand.mk "ultra_luxury" 600001 none ∈ price_ranges by decide)
      (show (PriceBand.mk "ultra_luxury" 600001 none).matches p = true by
        simp [PriceBand.matches]; omega)

/-- C1 (counterexample): it is NOT the case that every price in the declared
domain satisfies exactly one partition's filter: the integer price 20000
falls strictly between the "budget" band (`price < 20000`) and the "budget2"
band (`price >= 20001`) and satisfies no filter at all. -/
theorem C1_price_bands_counterexample :
    ¬ (∀ p : Nat, price_ranges.countP (fun b => b.matches p) = 1) := by
  intro h
  exact absurd (h 20000) (by decide)

/-- C1 (amended): the partition plan's price-band predicates are pairwise
disjoint (every price satisfies at most one filter), but they do not cover
the declared domain: every price outside the thirteen boundary values of
`gapPrices` satisfies exactly one filter, while each of those thirteen
boundary values satisfies none. -/
theorem C1_price_bands_disjoint_with_gaps :
    (∀ p : Nat, price_ranges.countP (fun b => b.matches p) ≤ 1) ∧
    (∀ p : Nat, p ∉ gapPrices →
      1 ≤ price_ranges.countP (fun b => b.matches p)) ∧
    (∀ p ∈ gapPrices, price_ranges.countP (fun b => b.matches p) = 0) :=
  ⟨fun p => countP_matches_le_one price_ranges (by decide) p,
   price_ranges_cover,
   by decide⟩

/-- C1 (witness): a price inside a band satisfies exactly one filter, and
the boundary price 20000 satisfies none. -/
theorem C1_price_bands_disjoint_with_gaps_witness :
    price_ranges.countP (fun b => b.matches 25000) ≤ 1 ∧
    1 ≤ price_ranges.countP (fun b => b.matches 25000) ∧
    price_ranges.countP (fun b => b.matches 20000) = 0 :=
  ⟨C1_price_bands_disjoint_with_gaps.1 25000,
   C1_price_bands_disjoint_with_gaps.2.1 25000 (by decide),
   C1_price_bands_disjoint_with_gaps.2.2 20000 (by decide)⟩

/- § Helper lemmas for the transport. -/

theorem make_request_from_ok (o : Nat → Except ε ρ) (a : Nat) (r : ρ)
    (h : o a = .ok r) : make_request_from o a = (.ok r, [], 1) := by
  rw [make_request_from, h]

theorem make_request_from_err_step (o : Nat → Except ε ρ) (a : Nat) (e : ε)
    (h : o a = .error e) (ha : a < max_retries - 1) :
    make_request_from o a =
      ((make_request_from o (a + 1)).1,
        retry_delay * (a + 1) :: (make_request_from o (a + 1)).2.1,
        (make_request_from o (a + 1)).2.2 + 1) := by
  rw [make_request_from, h]
  simp [ha]

theorem make_request_from_err_last (o : Nat → Except ε ρ) (a : Nat) (e : ε)
    (h : o a = .error e) (ha : ¬ a < max_retries - 1) :
    make_request_from o a = (.error e, [], 1) := by
  rw [make_request_from, h]
  simp [ha]

theorem make_request_from_attempts (o : Nat → Except ε ρ) :
    ∀ k a, max_retries - a = k → a < max_retries →
      (make_request_from o a).2.2 ≤ max_retries - a := by
  intro k
  induction k with
  | zero =>
    intro a hk ha
    omega
  | succ n ih =>
    intro a hk ha
    rcases h0 : o a with e0 | r0
    · by_cases hlt : a < max_retries - 1
      · rw [make_request_from_err_step o a e0 h0 hlt]
        have := ih (a + 1) (by omega) (by omega)
        simp only []
        omega
      · rw [make_request_from_err_last o a e0 h0 hlt]
        simp only []
        omega
    · rw [make_request_from_ok o a r0 h0]
      simp only []
      omega

/-- C5: a single transport request makes at most `max_retries = 3` attempts;
it returns immediately (one attempt, no sleeping) when the first attempt
succeeds; and when every attempt fails it raises the last attempt's failure
to the caller after exactly 3 attempts, having slept between attempts with a
backoff delay that scales with the attempt number
(`retry_delay * (attempt + 1)`, i.e. 2 then 4 seconds). -/
theorem C5_transport_retry_budget (o : Nat → Except ε ρ) :
    ((make_request o).2.2 ≤ max_retries) ∧
    (∀ r, o 0 = .ok r → make_request o = (.ok r, [], 1)) ∧
    ((∀ i, i < max_retries → ∃ e, o i = .error e) →
      (∃ e, o (max_retries - 1) = .error e ∧ (make_request o).1 = .error e) ∧
      (make_request o).2.2 = max_retries ∧
      (make_request o).2.1 = [retry_delay * 1, retry_delay * 2]) := by
  refine ⟨?_, ?_, ?_⟩
  · exact make_request_from_attempts o max_retries 0 rfl (by simp [max_retries])
  · intro r h0
    exact make_request_from_ok o 0 r h0
  · intro h
    obtain ⟨e0, h0⟩ := h 0 (by simp [max_retries])
    obtain ⟨e1, h1⟩ := h 1 (by simp [max_retries])
    obtain ⟨e2, h2⟩ := h 2 (by simp [max_retries])
    have hm : make_request o = (.error e2, [retry_delay * 1, retry_delay * 2], 3) := by
      show make_request_from o 0 = _
      rw [make_request_from_err_step o 0 e0 h0 (by simp [max_retries]),
          make_request_from_err_step o (0 + 1) e1 h1 (by simp [max_retries]),
          make_request_from_err_last o (0 + 1 + 1) e2 h2 (by simp [max_retries])]
    rw [hm]
    exact ⟨⟨e2, h2, rfl⟩, rfl, rfl⟩

/-- C5 (witness): on an always-failing transport the request raises after
exactly 3 attempts with sleeps of 2 and 4 seconds; on an always-succeeding
transport it returns at once. -/
theorem C5_transport_retry_budget_witness :
    ((make_request failSend).2.2 ≤ max_retries) ∧
    (make_request okSend = (.ok 7, [], 1)) ∧
    ((∃ e, failSend (max_retries - 1) = .error e ∧
        (make_request failSend).1 = .error e) ∧
      (make_request failSend).2.2 = max_retries ∧
      (make_request failSend).2.1 = [retry_delay * 1, retry_delay * 2]) :=
  ⟨(C5_transport_retry_budget failSend).1,
   (C5_transport_retry_budget okSend).2.1 7 rfl,
   (C5_transport_retry_budget failSend).2.2 (fun _i _hi => ⟨"boom", rfl⟩)⟩

theorem make_request_failSendList :
    make_request failSendList = (.error "down", [retry_delay * 1, retry_delay * 2], 3) := by
  show make_request_from failSendList 0 = _
  rw [make_request_from_err_step failSendList 0 "down" rfl (by simp [max_retries]),
      make_request_from_err_step failSendList (0 + 1) "down" rfl (by simp [max_retries]),
      make_request_from_err_last failSendList (0 + 1 + 1) "down" rfl (by simp [max_retries])]

/-- C4: a transport failure surviving the retry budget is fatal only for the
current request: `scrape_listings` catches it and returns the empty-page
signal `[]`; the PropertyFinder loop treats a failed fetch (`none`) exactly
as an empty page (it feeds the consecutive-empty counter); and the
orchestrating loop still processes every declared partition — the k-th
output slot depends only on the k-th partition's own body, so one
partition's failure never aborts the run. -/
theorem C4_transport_error_contained :
    (∀ (o : Nat → Except ε (List ρ)) (e : ε),
      (make_request o).1 = .error e → scrape_listings o = []) ∧
    (fetchEmpty (none : Option (List ρ)) = true) ∧
    (∀ (body : PriceBand → Except ε (List ρ)),
      (price_range_scrape_run body).length = price_ranges.length ∧
      ∀ i : Nat, (price_range_scrape_run body)[i]? =
        (price_ranges[i]?).map (fun b => (body b).toOption)) := by
  refine ⟨?_, rfl, ?_⟩
  · intro o e h
    unfold scrape_listings
    rw [h]
  · intro body
    refine ⟨List.length_map _ _, ?_⟩
    intro i
    show (price_ranges.map (fun b => (body b).toOption))[i]? = _
    exact List.getElem?_map _ _ _

/-- C4 (witness): on an always-failing transport, `scrape_listings` returns
the empty page; an all-raising partition body still yields one output slot
per declared partition. -/
theorem C4_transport_error_contained_witness :
    scrape_listings failSendList = [] ∧
    (price_range_scrape_run failBody).length = price_ranges.length :=
  ⟨(@C4_transport_error_contained String Nat).1 failSendList "down"
      (by rw [make_request_failSendList]),
   ((@C4_transport_error_contained String Nat).2.2 failBody).1⟩

/- § Helper lemmas for the Magnolia page loop. -/

theorem prs_go_succ_empty (fetch : Nat → List ρ) (fuel page : Nat)
    (acc : List ρ) (h : (fetch page).isEmpty = true) :
    prs_go fetch (fuel + 1) page acc = (acc, [page]) := by
  simp [prs_go, h]

theorem prs_go_succ_nonempty (fetch : Nat → List ρ) (fuel page : Nat)
    (acc : List ρ) (h : (fetch page).isEmpty = false) :
    prs_go fetch (fuel + 1) page acc =
      ((prs_go fetch fuel (page + 1) (acc ++ fetch page)).1,
        page :: (prs_go fetch fuel (page + 1) (acc ++ fetch page)).2) := by
  simp [prs_go, h]

/-- C8: against a source with 2 non-empty pages and nothing afterwards, the
partition page loop (with page budget at least 3) accumulates exactly the
two pages' listings in page order and requests exactly pages 0, 1 and 2 —
it stops at the empty page 2 and never requests a page beyond it. -/
theorem C8_page_loop_concatenates_and_stops (l0 l1 : List ρ) (m : Nat)
    (h0 : l0 ≠ []) (h1 : l1 ≠ []) (hm : 3 ≤ m) :
    price_range_pages (fun p => if p = 0 then l0 else if p = 1 then l1 else []) m
      = (l0 ++ l1, [0, 1, 2]) := by
  obtain ⟨k, rfl⟩ : ∃ k, m = k + 3 := ⟨m - 3, by omega⟩
  show prs_go _ ((k + 2) + 1) 0 [] = _
  rw [prs_go_succ_nonempty _ _ 0 [] (by simp [List.isEmpty_eq_false, h0])]
  rw [prs_go_succ_nonempty _ _ (0 + 1) _ (by simp [List.isEmpty_eq_false, h1])]
  rw [prs_go_succ_empty _ _ (0 + 1 + 1) _ (by simp)]
  simp

/-- C8 (witness): the loop on the concrete stub with pages [10] and [20]. -/
theorem C8_page_loop_concatenates_and_stops_witness :
    price_range_pages
        (fun p => if p = 0 then [10] else if p = 1 then [20] else ([] : List Nat)) 3
      = ([10, 20], [0, 1, 2]) :=
  C8_page_loop_concatenates_and_stops [10] [20] 3
    (by decide) (by decide) (by decide)

/- § Helper lemmas for the PropertyFinder loop. -/

theorem pf_loop_all_empty (tol : Nat) (fetch : Nat → Option (List ρ)) :
    ∀ (fuel call page retry : Nat) (acc : List ρ),
      (∀ c, call ≤ c → fetchEmpty (fetch c) = true) →
      (pf_loop tol fetch fuel call page retry acc).1 = acc := by
  intro fuel
  induction fuel with
  | zero =>
    intro call page retry acc _h
    rfl
  | succ n ih =>
    intro call page retry acc h
    have hc : fetchEmpty (fetch call) = true := h call le_rfl
    by_cases ht : tol ≤ retry + 1
    · simp [pf_loop, hc, ht]
    · simp only [pf_loop, hc, ht, if_true, if_false]
      exact ih (call + 1) page (retry + 1) acc (fun c hcge => h c (by omega))

theorem pf_loop_trace_head (tol : Nat) (fetch : Nat → Option (List ρ))
    (fuel call page retry : Nat) (acc : List ρ) :
    ∀ e ∈ ((pf_loop tol fetch fuel call page retry acc).2).head?,
      e.page = page ∧ e.retry = retry := by
  cases fuel with
  | zero =>
    intro e he
    simp [pf_loop] at he
  | succ n =>
    intro e he
    by_cases hr : fetchEmpty (fetch call) = true
    · by_cases ht : tol ≤ retry + 1
      · simp only [pf_loop, hr, ht, if_true] at he
        simp at he
        subst he
        exact ⟨rfl, rfl⟩
      · simp only [pf_loop, hr, ht, if_true, if_false] at he
        simp at he
        subst he
        exact ⟨rfl, rfl⟩
    · rw [Bool.not_eq_true] at hr
      simp only [pf_loop, hr] at he
      simp at he
      subst he
      exact ⟨rfl, rfl⟩

theorem pf_loop_chain (tol : Nat) (fetch : Nat → Option (List ρ)) :
    ∀ (fuel call page retry : Nat) (acc : List ρ),
      List.Chain' pfAdjacent (pf_loop tol fetch fuel call page retry acc).2 := by
  intro fuel
  induction fuel with
  | zero =>
    intro call page retry acc
    simp [pf_loop]
  | succ n ih =>
    intro call page retry acc
    by_cases hr : fetchEmpty (fetch call) = true
    · by_cases ht : tol ≤ retry + 1
      · simp [pf_loop, hr, ht]
      · simp only [pf_loop, hr, ht, if_true, if_false]
        rw [List.chain'_cons']
        refine ⟨?_, ih (call + 1) page (retry + 1) acc⟩
        intro y hy
        have hh := pf_loop_trace_head tol fetch n (call + 1) page (retry + 1) acc y hy
        simp [pfAdjacent, hr, hh.1, hh.2]
    · rw [Bool.not_eq_true] at hr
      simp only [pf_loop, hr, Bool.false_eq_true, if_false]
      rw [List.chain'_cons']
      refine ⟨?_, ih (call + 1) (page + 1) 0 (acc ++ (fetch call).getD [])⟩
      intro y hy
      have hh := pf_loop_trace_head tol fetch n (call + 1) (page + 1) 0
        (acc ++ (fetch call).getD []) y hy
      simp [pfAdjacent, hr, hh.1, hh.2]

theorem pf_loop_retry_bound (tol : Nat) (fetch : Nat → Option (List ρ)) :
    ∀ (fuel call page retry : Nat) (acc : List ρ), retry < tol →
      ∀ e ∈ (pf_loop tol fetch fuel call page retry acc).2, e.retry < tol := by
  intro fuel
  induction fuel with
  | zero =>
    intro call page retry acc _hrt e he
    simp [pf_loop] at he
  | succ n ih =>
    intro call page retry acc hrt e he
    by_cases hr : fetchEmpty (fetch call) = true
    · by_cases ht : tol ≤ retry + 1
      · simp only [pf_loop, hr, ht, if_true] at he
        simp at he
        subst he
        exact hrt
      · simp only [pf_loop, hr, ht, if_true, if_false] at he
        simp only [List.mem_cons] at he
        rcases he with he | he
        · subst he
          exact hrt
        · exact ih (call + 1) page (retry + 1) acc (by omega) e he
    · rw [Bool.not_eq_true] at hr
      simp only [pf_loop, hr, Bool.false_eq_true, if_false] at he
      simp only [List.mem_cons] at he
      rcases he with he | he
      · subst he
        exact hrt
      · exact ih (call + 1) (page + 1) 0 (acc ++ (fetch call).getD []) (by omega) e he

/-- C3: against a source whose first response for page 1 is transiently
empty and whose retry of that same page returns the non-empty listings `l`,
the PropertyFinder loop does not stop at the transient empty response for
any consecutive-empty tolerance of at least 2 — in particular for the
source's tolerance of 3 — and its result is exactly the non-empty page's
records. -/
theorem C3_transient_empty_page_not_fatal (l : List ρ) (hl : l ≠ [])
    (tol f : Nat) (htol : 2 ≤ tol) :
    (pf_loop tol (transientStub l) (f + 2) 0 1 0 []).1 = l ∧
    (scrape_properties (transientStub l) (f + 2)).1 = l := by
  obtain ⟨a, t, rfl⟩ := List.exists_cons_of_ne_nil hl
  have main : ∀ tl, 2 ≤ tl →
      (pf_loop tl (transientStub (a :: t)) (f + 2) 0 1 0 []).1 = a :: t := by
    intro tl htl
    have h0 : fetchEmpty (transientStub (a :: t) 0) = true := rfl
    have hnt : ¬ tl ≤ 0 + 1 := by omega
    have h1e : fetchEmpty (transientStub (a :: t) (0 + 1)) = false := rfl
    have hrest : ∀ c, 0 + 1 + 1 ≤ c →
        fetchEmpty (transientStub (a :: t) c) = true := by
      intro c hc
      have hne : c ≠ 1 := by omega
      simp [transientStub, hne, fetchEmpty]
    show (pf_loop tl (transientStub (a :: t)) ((f + 1) + 1) 0 1 0 []).1 = a :: t
    simp only [pf_loop, h0, hnt, if_true, if_false]
    simp only [pf_loop, h1e, Bool.false_eq_true, if_false]
    exact (pf_loop_all_empty tl _ f (0 + 1 + 1) (1 + 1) 0 _ hrest).trans
      (by simp [transientStub])
  exact ⟨main tol htol, main 3 (by omega)⟩

/-- C3 (witness): the concrete transient source with listings [5], at the
minimal tolerance 2 and at the source's tolerance 3. -/
theorem C3_transient_empty_page_not_fatal_witness :
    (pf_loop 2 (transientStub [5]) (2 + 2) 0 1 0 []).1 = [5] ∧
    (scrape_properties (transientStub [5]) (2 + 2)).1 = [5] :=
  C3_transient_empty_page_not_fatal [5] (by decide) 2 2 (by decide)

/-- C10: along the whole run of the PropertyFinder loop, consecutive calls
satisfy: after an empty or failed fetch the same page is re-requested with
the retry count bumped (the page cursor is unchanged); after a fetch with
at least one listing the page cursor advances by exactly one and the retry
count resets — so a transiently empty page never skips a page of results —
and the retry count at every call stays below the tolerance of 3 (at most 3
consecutive attempts of one page before the loop stops). -/
theorem C10_page_cursor_only_advances_on_listings
    (fetch : Nat → Option (List ρ)) (fuel : Nat) :
    List.Chain' pfAdjacent (scrape_properties fetch fuel).2 ∧
    ∀ e ∈ (scrape_properties fetch fuel).2, e.retry < 3 :=
  ⟨pf_loop_chain 3 fetch fuel 0 1 0 [],
   pf_loop_retry_bound 3 fetch fuel 0 1 0 [] (by omega)⟩

/-- C10 (witness): the run against an always-failing source requests page 1
three times with retry counts 0, 1, 2 and stops. -/
theorem C10_page_cursor_only_advances_on_listings_witness :
    List.Chain' pfAdjacent (scrape_properties failFetch 5).2 ∧
    (⟨1, 0, none⟩ : PFEntry Nat).retry < 3 :=
  ⟨(C10_page_cursor_only_advances_on_listings failFetch 5).1,
   (C10_page_cursor_only_advances_on_listings failFetch 5).2
     ⟨1, 0, none⟩ (by decide)⟩

/-- C2: for every raw listing holding an identifier, normalization succeeds
— no absent optional structure (geography, location sequence, category
sequence, agency, extraFields) or absent optional scalar makes it fail —
and every omitted optional field surfaces as a null column; only an absent
identifier is a failure, with `SchemaError.missingIdentifier`. -/
theorem C2_normalize_never_raises (raw : RawListing) (ts : String)
    (i : String) (h : raw.objectID = some i) :
    normalizeListing raw ts = .ok (normalizeFields raw ts) ∧
    (raw.geography = none → (normalizeFields raw ts).latitude = none ∧
      (normalizeFields raw ts).longitude = none) ∧
    (raw.location = none → (normalizeFields raw ts).CityName = none ∧
      (normalizeFields raw ts).DistrictID = none ∧
      (normalizeFields raw ts).DistrictName = none ∧
      (normalizeFields raw ts).NeighborhoodName = none ∧
      (normalizeFields raw ts).BuildingName = none) ∧
    (raw.category = none → (normalizeFields raw ts).CategoryTypeName = none ∧
      (normalizeFields raw ts).CategorySubtypeName = none) ∧
    (raw.agency = none → (normalizeFields raw ts).AgencyName = none) ∧
    (raw.extraFields = none → (normalizeFields raw ts).DldBuildingNK = none ∧
      (normalizeFields raw ts).DldPropertySK = none) ∧
    (raw.externalID = none → (normalizeFields raw ts).BayutLink = none) ∧
    (raw.createdAt = none → (normalizeFields raw ts).createdAt = none) ∧
    (raw.updatedAt = none → (normalizeFields raw ts).updatedAt = none) ∧
    (raw.price = none → (normalizeFields raw ts).price = none) ∧
    (raw.title = none → (normalizeFields raw ts).title = none) ∧
    (raw.rooms = none → (normalizeFields raw ts).rooms = none) ∧
    (raw.area = none → (normalizeFields raw ts).area_sqm = none) ∧
    (raw.contactName = none → (normalizeFields raw ts).contactName = none) ∧
    (∀ raw2 : RawListing, raw2.objectID = none →
      normalizeListing raw2 ts = .error SchemaError.missingIdentifier) := by
  refine ⟨?_, ?_, ?_, ?_, ?_, ?_, ?_, ?_, ?_, ?_, ?_, ?_, ?_, ?_, ?_⟩
  · unfold normalizeListing
    rw [h]
  · intro hg
    simp [normalizeFields, hg]
  · intro hloc
    simp [normalizeFields, extract_location_details, hloc]
  · intro hcat
    simp [normalizeFields, extract_category_details, hcat]
  · intro ha
    simp [normalizeFields, ha]
  · intro he
    simp [normalizeFields, he]
  · intro hx
    simp [normalizeFields, hx]
  · intro hc
    simp [normalizeFields, hc]
  · intro hu
    simp [normalizeFields, hu]
  · intro hp
    simp [normalizeFields, hp]
  · intro htl
    simp [normalizeFields, htl]
  · intro hr
    simp [normalizeFields, hr]
  · intro hae
    simp [normalizeFields, hae]
  · intro hcn
    simp [normalizeFields, hcn]
  · intro raw2 h2
    unfold normalizeListing
    rw [h2]

/-- C2 (witness): the bare identified listing normalizes successfully with
null columns for its absent structures; the identifier-less listing fails
with the schema error. -/
theorem C2_normalize_never_raises_witness :
    normalizeListing bareRaw "2024-12-01" = .ok (normalizeFields bareRaw "2024-12-01") ∧
    (normalizeFields bareRaw "2024-12-01").latitude = none ∧
    (normalizeFields bareRaw "2024-12-01").CityName = none ∧
    normalizeListing noIdRaw "2024-12-01" = .error SchemaError.missingIdentifier :=
  ⟨(C2_normalize_never_raises bareRaw "2024-12-01" "ad1" rfl).1,
   ((C2_normalize_never_raises bareRaw "2024-12-01" "ad1" rfl).2.1 rfl).1,
   ((C2_normalize_never_raises bareRaw "2024-12-01" "ad1" rfl).2.2.1 rfl).1,
   (C2_normalize_never_raises bareRaw "2024-12-01" "ad1"
      rfl).2.2.2.2.2.2.2.2.2.2.2.2.2.2 noIdRaw rfl⟩

/-- C7: the location hierarchy walk returns the (external id, name) pair of
the FIRST node at the requested level (first occurrence wins), returns
(null, null) when no node has that level, and consequently a listing whose
location nodes sit at levels 1 and 2 only gets its City and District
columns from those nodes while NeighborhoodName and BuildingName are null. -/
theorem C7_location_walk_first_match (pre post : List LocNode) (n : LocNode)
    (lvl : Nat) (hn : n.level = some lvl)
    (hpre : ∀ m ∈ pre, m.level ≠ some lvl) :
    extract_location_details (some (pre ++ n :: post)) lvl
      = (n.externalID, n.name) ∧
    (∀ locs : List LocNode, (∀ m ∈ locs, m.level ≠ some lvl) →
      extract_location_details (some locs) lvl = (none, none)) ∧
    (∀ (raw : RawListing) (ts : String) (c d : LocNode),
      raw.location = some [c, d] → c.level = some 1 → d.level = some 2 →
      (normalizeFields raw ts).CityName = c.name ∧
      (normalizeFields raw ts).DistrictID = d.externalID ∧
      (normalizeFields raw ts).DistrictName = d.name ∧
      (normalizeFields raw ts).NeighborhoodName = none ∧
      (normalizeFields raw ts).BuildingName = none) := by
  refine ⟨?_, ?_, ?_⟩
  · have hfind : ∀ pre2 : List LocNode, (∀ m ∈ pre2, m.level ≠ some lvl) →
        (pre2 ++ n :: post).find? (fun loc => loc.level == some lvl) = some n := by
      intro pre2
      induction pre2 with
      | nil =>
        intro _h
        simp only [List.nil_append]
        exact List.find?_cons_of_pos post (by simp [hn])
      | cons m ms ih =>
        intro hm
        have hm1 : m.level ≠ some lvl := hm m (List.mem_cons_self m ms)
        simp only [List.cons_append]
        rw [List.find?_cons_of_neg _ (by simp [hm1])]
        exact ih (fun x hx => hm x (List.mem_cons_of_mem m hx))
    simp [extract_location_details, hfind pre hpre]
  · intro locs hnone
    have hf : locs.find? (fun loc => loc.level == some lvl) = none :=
      List.find?_eq_none.mpr (fun x hx => by simp [hnone x hx])
    simp [extract_location_details, hf]
  · intro raw ts c d hloc hc hd
    refine ⟨?_, ?_, ?_, ?_, ?_⟩ <;>
      simp [normalizeFields, extract_location_details, hloc, hc, hd, List.find?]

/-- C7 (witness): a listing with a level-1 city node and a level-2 district
node, nothing at levels 3 or 4. -/
theorem C7_location_walk_first_match_witness :
    extract_location_details (some ([] ++ cityNode :: [districtNode])) 1
      = (cityNode.externalID, cityNode.name) ∧
    (normalizeFields locRaw "d").CityName = cityNode.name ∧
    (normalizeFields locRaw "d").DistrictName = districtNode.name ∧
    (normalizeFields locRaw "d").NeighborhoodName = none ∧
    (normalizeFields locRaw "d").BuildingName = none :=
  ⟨(C7_location_walk_first_match [] [districtNode] cityNode 1 rfl
      (by simp)).1,
   ((C7_location_walk_first_match [] [districtNode] cityNode 1 rfl
      (by simp)).2.2 locRaw "d" cityNode districtNode rfl rfl rfl).1,
   ((C7_location_walk_first_match [] [districtNode] cityNode 1 rfl
      (by simp)).2.2 locRaw "d" cityNode districtNode rfl rfl rfl).2.2.1,
   ((C7_location_walk_first_match [] [districtNode] cityNode 1 rfl
      (by simp)).2.2 locRaw "d" cityNode districtNode rfl rfl rfl).2.2.2.1,
   ((C7_location_walk_first_match [] [districtNode] cityNode 1 rfl
      (by simp)).2.2 locRaw "d" cityNode districtNode rfl rfl rfl).2.2.2.2⟩

/-- C9: normalization is deterministic — run twice on the same raw listing
with the same supplied capture timestamp, it produces identical normalized
records (both through the identifier gate and on the flattened fields). -/
theorem C9_normalize_deterministic (raw1 raw2 : RawListing) (ts1 ts2 : String)
    (hraw : raw1 = raw2) (hts : ts1 = ts2) :
    normalizeListing raw1 ts1 = normalizeListing raw2 ts2 ∧
    normalizeFields raw1 ts1 = normalizeFields raw2 ts2 := by
  subst hraw
  subst hts
  exact ⟨rfl, rfl⟩

/-- C9 (witness): two runs on the bare listing with the same timestamp. -/
theorem C9_normalize_deterministic_witness :
    normalizeListing bareRaw "t" = normalizeListing bareRaw "t" ∧
    normalizeFields bareRaw "t" = normalizeFields bareRaw "t" :=
  C9_normalize_deterministic bareRaw bareRaw "t" "t" rfl rfl

/-- C6 (counterexample): consolidating an empty set of partition units does
NOT fail with an IOError surfaced to the caller: `combine_csv_files` logs a
warning and returns normally, producing no output. -/
theorem C6_consolidate_counterexample :
    ¬ (∀ units : List (List Nat), units.isEmpty = true →
        combine_csv_files units = ConsolidateOutcome.raisedIOError) := by
  intro h
  exact absurd (h [] rfl) (by decide)

/-- C6 (amended): consolidation concatenates every partition unit in
discovery order and always succeeds when at least one unit exists; when no
unit exists it produces no dataset, logging a warning and returning
normally rather than raising an IOError; three units with record counts
{5, 0, 7} and the (type-enforced) identical schema consolidate into exactly
12 records. -/
theorem C6_consolidate_concatenates :
    (combine_csv_files ([] : List (List Nat)) = .returnedWithoutOutput) ∧
    (∀ us : List (List Nat), us ≠ [] → combine_csv_files us = .wrote us.flatten) ∧
    (∀ u1 u2 u3 : List Nat, u1.length = 5 → u2.length = 0 → u3.length = 7 →
      combine_csv_files [u1, u2, u3] = .wrote ([u1, u2, u3].flatten) ∧
      ([u1, u2, u3].flatten).length = 12) := by
  refine ⟨rfl, ?_, ?_⟩
  · intro us hus
    have hf : us.isEmpty = false := List.isEmpty_eq_false.mpr hus
    simp [combine_csv_files, hf]
  · intro u1 u2 u3 h1 h2 h3
    refine ⟨?_, ?_⟩
    · simp [combine_csv_files]
    · simp [h1, h2, h3]

/-- C6 (witness): units of sizes 5, 0 and 7. -/
theorem C6_consolidate_concatenates_witness :
    combine_csv_files [List.replicate 5 (0 : Nat), [], List.replicate 7 0]
        = .wrote ([List.replicate 5 (0 : Nat), [], List.replicate 7 0].flatten) ∧
    ([List.replicate 5 (0 : Nat), [], List.replicate 7 0].flatten).length = 12 :=
  C6_consolidate_concatenates.2.2 (List.replicate 5 0) [] (List.replicate 7 0)
    (by decide) rfl (by decide)
